import Mathlib

/-!
Verification of the `lab176344/lb.github.io` static-blog repository.

The repository consists of two declarative configuration files
(`astro.config.mjs`, `tailwind.config.mjs`) and one Markdown content
document (`src/content/blog/big-query/index.md`).  This file embeds the
configuration records and the content document shallowly and proves the
validity properties stated about them: front-matter typing, date and URL
syntax, glob coverage, Markdown well-formedness (balanced code fences,
consistent table rows), palette/font invariants, and determinism and
idempotence of the (externally owned, spec-modelled) build step.

All string processing is done on `String.data : List Char` with
executable functions so that every concrete property can be settled by
`decide`.
-/

/-! ## Character-list primitives -/

/-- `isPrefixOfCh p s` is true when the character list `p` is a prefix of `s`. -/
def isPrefixOfCh : List Char → List Char → Bool
  | [], _ => true
  | _ :: _, [] => false
  | c :: p, d :: s => c == d && isPrefixOfCh p s

/-- `startsWithStr s pre` is true when the string `s` starts with `pre`. -/
def startsWithStr (s pre : String) : Bool :=
  isPrefixOfCh pre.data s.data

/-- Split a character list at every occurrence of the separator `c`.
The separator itself is dropped; `n` separators yield `n + 1` segments. -/
def splitOnCh (c : Char) : List Char → List (List Char)
  | [] => [[]]
  | d :: s =>
    let r := splitOnCh c s
    if d == c then [] :: r
    else
      match r with
      | [] => [[d]]
      | t :: ts => (d :: t) :: ts

/-- Count the occurrences of the character `c` in a character list. -/
def countCh (c : Char) : List Char → Nat
  | [] => 0
  | d :: s => (if c == d then 1 else 0) + countCh c s

/-- Trim ASCII spaces from both ends of a character list. -/
def trimCh (l : List Char) : List Char :=
  ((l.dropWhile (· == ' ')).reverse.dropWhile (· == ' ')).reverse

/-- The value of an ASCII decimal digit, `none` for any other character. -/
def digitVal (c : Char) : Option Nat :=
  if 48 ≤ c.toNat && c.toNat ≤ 57 then some (c.toNat - 48) else none

/-- Accumulator loop for `parseNatCh`. -/
def parseNatChAux : List Char → Nat → Option Nat
  | [], acc => some acc
  | c :: s, acc =>
    match digitVal c with
    | some d => parseNatChAux s (acc * 10 + d)
    | none => none

/-- Parse a non-empty all-digit character list as a natural number. -/
def parseNatCh (l : List Char) : Option Nat :=
  if l.isEmpty then none else parseNatChAux l 0

/-- `distinctStrings l` is true when the strings in `l` are pairwise distinct
(compared by their character data). -/
def distinctStrings : List String → Bool
  | [] => true
  | s :: ss => !(ss.any (fun t => s.data == t.data)) && distinctStrings ss

/-- Association-list lookup keyed by strings, compared by character data. -/
def lookupStr {α : Type} (k : String) : List (String × α) → Option α
  | [] => none
  | (k', v) :: m => if k.data == k'.data then some v else lookupStr k m

/-! ## Calendar dates

The content document's `pubDate` front-matter field is an ISO
`YYYY-MM-DD` string; the collection schema requires it to denote a real
calendar date. -/

/-- Gregorian leap-year rule. -/
def isLeapYear (y : Nat) : Bool :=
  (y % 4 == 0 && y % 100 != 0) || y % 400 == 0

/-- Number of days in month `m` of year `y` (months are 1-based). -/
def daysInMonth (y m : Nat) : Nat :=
  if m == 2 then (if isLeapYear y then 29 else 28)
  else if m == 4 || m == 6 || m == 9 || m == 11 then 30
  else 31

/-- Parse a `YYYY-MM-DD` string into a `(year, month, day)` triple,
returning `none` unless the three components are numeric and denote a
valid calendar date. -/
def parseDate (s : String) : Option (Nat × Nat × Nat) :=
  match (splitOnCh '-' s.data).map parseNatCh with
  | [some y, some m, some d] =>
    if 1 ≤ m ∧ m ≤ 12 ∧ 1 ≤ d ∧ d ≤ daysInMonth y m then some (y, m, d) else none
  | _ => none

/-! ## URL syntax -/

/-- Lowercase ASCII letter (URL scheme alphabet as used by this site). -/
def isSchemeChar (c : Char) : Bool :=
  97 ≤ c.toNat && c.toNat ≤ 122

/-- Characters allowed in the host and path of the site URL:
lowercase letters, digits, dot, hyphen and the path separator. -/
def isHostPathChar (c : Char) : Bool :=
  isSchemeChar c || (48 ≤ c.toNat && c.toNat ≤ 57) || c == '.' || c == '-' || c == '/'

/-- Locate the first `://` in a character list, returning the scheme part
and the remainder after the marker. -/
def splitSchemeAux : List Char → Option (List Char × List Char)
  | [] => none
  | c :: s =>
    if isPrefixOfCh "://".data (c :: s) then some ([], (c :: s).drop 3)
    else
      match splitSchemeAux s with
      | some (a, b) => some (c :: a, b)
      | none => none

/-- Syntactic absolute-URL check: a non-empty all-letter scheme, the
`://` marker, then a non-empty authority (not starting with `/`) made of
host/path characters. -/
def isAbsoluteURL (s : String) : Bool :=
  match splitSchemeAux s.data with
  | some (scheme, rest) =>
    !scheme.isEmpty && scheme.all isSchemeChar &&
    !rest.isEmpty && !(rest.head? == some '/') && rest.all isHostPathChar
  | none => false

/-- Syntactic URL path-prefix check: begins with `/` and contains only
host/path characters. -/
def isValidBasePath (s : String) : Bool :=
  startsWithStr s "/" && s.data.all isHostPathChar

/-! ## Site configuration (`astro.config.mjs`)

```
export default defineConfig({
  site: 'https://lab176344.github.io',
  base: '/',
  integrations: [tailwind()],
});
```
-/

/-- A framework integration registered with the site generator.  The only
integration the repository imports and enables is `@astrojs/tailwind`. -/
inductive Integration where
  | tailwind
deriving DecidableEq

/-- The shape of the site configuration record passed to `defineConfig`:
deployment site URL, base path, and the list of active integrations. -/
structure AstroConfig where
  site : String
  base : String
  integrations : List Integration
deriving DecidableEq

/-- The site configuration record of `astro.config.mjs` (lines 6–10). -/
def astroConfig : AstroConfig :=
  { site := "https://lab176344.github.io"
    base := "/"
    integrations := [Integration.tailwind] }

/-! ## Style configuration (`tailwind.config.mjs`)

```
export default {
  content: ['./src/**/*.{astro,html,js,jsx,md,mdx,svelte,ts,tsx,vue}'],
  theme: { extend: { colors: { tui: { bg, fg, accent, dim, border, selection } },
                     fontFamily: { mono: [...] } } },
  plugins: [require('@tailwindcss/typography')],
}
```
-/

/-- A styling plugin.  The only plugin the repository requires is
`@tailwindcss/typography`. -/
inductive Plugin where
  | typography
deriving DecidableEq

/-- The shape of the style (theme) configuration record: the ordered
content glob list, the `colors.tui` token mapping, the `fontFamily`
mapping, and the plugin list. -/
structure TailwindConfig where
  content : List String
  tuiColors : List (String × String)
  fontFamily : List (String × List String)
  plugins : List Plugin

/-- The style configuration record of `tailwind.config.mjs` (lines 2–22). -/
def tailwindConfig : TailwindConfig :=
  { content := ["./src/**/*.\x7bastro,html,js,jsx,md,mdx,svelte,ts,tsx,vue\x7d"]
    tuiColors :=
      [("bg", "#1a1b26"), ("fg", "#a9b1d6"), ("accent", "#9ece6a"),
       ("dim", "#565f89"), ("border", "#414868"), ("selection", "#33467c")]
    fontFamily := [("mono", ["\x22JetBrains Mono\x22", "\x22Fira Code\x22", "monospace"])]
    plugins := [Plugin.typography] }

/-- The `mono` font stack declared in the style configuration. -/
def monoStack : List String :=
  (lookupStr "mono" tailwindConfig.fontFamily).getD []

/-- A 7-character lowercase hexadecimal color literal: `#` followed by
six characters drawn from `0-9a-f`. -/
def isHexColor (s : String) : Bool :=
  match s.data with
  | '#' :: rest =>
    rest.length == 6 &&
    rest.all (fun c => (48 ≤ c.toNat && c.toNat ≤ 57) || (97 ≤ c.toNat && c.toNat ≤ 102))
  | _ => false

/-! ## Glob matching

Glob semantics as used by the styling framework's content scanner:
`*` matches any run of non-separator characters, `**` matches any run of
characters including separators, braces expand to alternatives. -/

/-- Fuel-indexed glob matcher; every recursive call shrinks the combined
length of pattern and path, so `pattern.length + path.length + 1` units
of fuel always suffice. -/
def globMatchFuel : Nat → List Char → List Char → Bool
  | 0, _, _ => false
  | _ + 1, [], [] => true
  | _ + 1, [], _ :: _ => false
  | n + 1, '*' :: '*' :: p, s =>
    globMatchFuel n p s ||
      (match s with
       | [] => false
       | _ :: s' => globMatchFuel n ('*' :: '*' :: p) s')
  | n + 1, '*' :: p, s =>
    globMatchFuel n p s ||
      (match s with
       | [] => false
       | c :: s' => !(c == '/') && globMatchFuel n ('*' :: p) s')
  | _ + 1, _ :: _, [] => false
  | n + 1, c :: p, d :: s => c == d && globMatchFuel n p s

/-- Match a glob pattern (as characters) against a path (as characters). -/
def globMatch (p s : List Char) : Bool :=
  globMatchFuel (p.length + s.length + 1) p s

/-- Expand one level of `\x7b a,b,c \x7d` brace alternation in a glob. -/
def expandBraces (s : String) : List String :=
  match splitOnCh '\x7b' s.data with
  | [pre, rest] =>
    match splitOnCh '\x7d' rest with
    | [inner, post] => (splitOnCh ',' inner).map (fun alt => String.mk (pre ++ alt ++ post))
    | _ => [s]
  | _ => [s]

/-- `globMatchesFile g f` is true when the glob `g` (after brace
expansion) matches the path `f`. -/
def globMatchesFile (g f : String) : Bool :=
  (expandBraces g).any (fun p => globMatch p.data f.data)

/-- The repository's files, as paths relative to the repository root
(the working directory of the style configuration's content scan). -/
def repoFiles : List String :=
  ["./astro.config.mjs", "./tailwind.config.mjs",
   "./src/content/blog/big-query/index.md"]
/-- The body of the content document: lines 7-334 of
`src/content/blog/big-query/index.md`, the lines after the closing
front-matter delimiter, one list element per source line. -/
def mdBodyLines : List String :=
  ["",
   "BigQuery is a tool for processing large datasets, but its performance and",
   "cost depend on how it is used. Without an understanding of its architecture,",
   "queries can be slow and expensive.",
   " Unlike traditional relational databases where performance is often",
   "measured by execution time, BigQuery demands a shift in focus: **you are billed",
   "for the data you scan, not the time you spend scanning it.**",
   "",
   "We are focusing only on the on-demand pay-as-you-go model, as it is the most common and relevant for optimisation.",
   "",
   "## 1. Understanding the Architecture: Storage vs. Compute",
   "",
   "To optimise BigQuery, you must first understand how it separates storage from",
   "compute. Your data lives in **Colossus**, Google’s distributed file system,",
   "stored in a proprietary columnar format called **Capacitor**. When you execute a",
   "query, the **Dremel** engine allocates compute slots to process that data.",
   "",
   "The connection between these two layers is a high-bandwidth network.",
   " While this network ensures fast data movement from storage to compute,",
   "data movement *between* compute slots (shuffling) during complex",
   "operations like joins or aggregations is a common performance bottleneck.",
   "The initial load bottleneck is usually the sheer volume of data being",
   "pulled from storage.",
   "",
   "### The Billing Model",
   "",
   "* **On-Demand:** Costs depend on the amount of data scanned.",
   "* **Storage:** Costs depend on the volume of data stored, with lower rates for",
   "  data that has not been modified for 90 days.",
   "",
   "**Key Takeaway:** A 5-second query isn\x27t necessarily a cheap query. Always watch",
   "the \"bytes processed\" metric rather than the clock.",
   "",
   "---",
   "",
   "## 2. Data Modelling: Denormalisation and Data Types",
   "",
   "In traditional SQL (Postgres, MySQL), normalisation is the standard approach. In",
   "BigQuery, **denormalisation** is often the path to efficiency.",
   "",
   "### Denormalisation vs. Joins",
   "",
   "Joins in BigQuery require \"shuffling\"—moving data between slots to find matching",
   "keys. This is compute-intensive and expensive. By pre-joining data into flat or",
   "nested structures, you reduce the need for shuffles.",
   "",
   "### Choosing Appropriate Data Types",
   "",
   "Every byte counts in a columnar store. Using `INT64` (8 bytes) instead of a",
   "`STRING` representation can save significant costs over billions of rows.",
   "",
   "* **STRING:** 2 bytes + UTF-8 length.",
   "* **NUMERIC:** 16 bytes (use only for high-precision financial data).",
   "* **DATE/TIMESTAMP:** 8 bytes.",
   "",
   "```sql",
   "-- Efficient Table Definition",
   "CREATE TABLE analytics.events (",
   "  user_id INT64,             -- 8 bytes",
   "  event_type STRING,         -- 2 bytes + length",
   "  event_date DATE,           -- 8 bytes",
   "  metadata JSON              -- Use sparsely for performance",
   ")",
   "CLUSTER BY user_id;",
   "```",
   "",
   "### Primary and Foreign Keys",
   "",
   "In traditional databases, primary keys are essential for performance (indexing)",
   "and data integrity. BigQuery\x27s approach is different:",
   "",
   "* **Optional and Non-Enforced:** Primary and foreign keys are optional. If",
   "  defined, they are **not enforced** by BigQuery during data ingestion. You are",
   "  responsible for ensuring data uniqueness and referential integrity.",
   "* **Performance Optimisation:** While not enforced, defining these keys can",
   "  improve query performance. The query optimiser uses the constraint information",
   "  to apply better join strategies (such as eliminating unnecessary shuffles) and",
   "  improving join ordering.",
   "* **Cost of Enforcement:** Because BigQuery is a distributed system, enforcing",
   "  uniqueness at scale would require significant cross-slot coordination, which",
   "  would slow down data loading and increase costs.",
   "",
   "---",
   "",
   "## 3. Storage Optimisation: Partitioning and Clustering",
   "",
   "These are effective methods for reducing query costs.",
   "",
   "### Partitioning",
   "",
   "Partitioning divides your table into segments (usually by date). When you filter",
   "by the partition column, BigQuery \"prunes\" the partitions, ignoring the data it",
   "doesn\x27t need.",
   "",
   "```sql",
   "-- Partitioning by day with a mandatory filter",
   "CREATE TABLE analytics.logs (",
   "  timestamp TIMESTAMP,",
   "  message STRING",
   ")",
   "PARTITION BY TIMESTAMP_TRUNC(timestamp, DAY)",
   "OPTIONS (",
   "  require_partition_filter = true",
   ");",
   "```",
   "",
   "### Clustering",
   "",
   "Clustering sorts the data within partitions based on up to four columns. This is",
   "particularly effective for columns with high cardinality (like `user_id` or",
   "`country_code`).",
   "",
   "**Note:** The order of clustering columns matters.",
   "column, then the second, and so on. Your `WHERE` clauses should follow this",
   "order for maximum effect.",
   "",
   "---",
   "",
   "## 4. Advanced Data Structures: Arrays and Structs",
   "",
   "BigQuery allows you to store related data in a single row using `ARRAY` and",
   "`STRUCT`. This significantly reduces row counts and avoids expensive joins.",
   "",
   "### The \"Global IoT Sensor\" Case Study",
   "",
   "Analysis of a high-frequency IoT sensor dataset illustrates this. By",
   "restructuring a flat table of **1.2 billion sensor readings (450 GB)** into a",
   "nested structure where readings were grouped into hourly arrays per device, the",
   "dataset was reduced to **60 million rows (280 GB)**—a 95% reduction in row count",
   "and a 38% reduction in storage size.",
   "",
   "#### Example: Normalised vs. Nested",
   "",
   "```sql",
   "-- Normalised (Flat): Requires a JOIN and shuffles data for every reading.",
   "SELECT ",
   "  d.device_name, ",
   "  s.reading ",
   "FROM `project.dataset.sensors` s",
   "JOIN `project.dataset.devices` d ON s.device_id = d.device_id;",
   "",
   "-- Nested (BigQuery): Data is co-located. No JOIN or shuffle required.",
   "SELECT ",
   "  device_name, ",
   "  r.reading ",
   "FROM `project.dataset.device_readings`,",
   "UNNEST(readings) AS r;",
   "```",
   "",
   "### Querying Nested Data",
   "",
   "Use the `UNNEST` keyword to flatten arrays back into a relational format for",
   "analysis.",
   "",
   "```sql",
   "-- Querying a nested user activity table",
   "SELECT",
   "  user_id,",
   "  session.page_path,",
   "  session.duration",
   "FROM `project.dataset.user_activity`,",
   "UNNEST(sessions) AS session",
   "WHERE session.date = \x272024-01-01\x27;",
   "```",
   "",
   "---",
   "",
   "## 5. Modern Search Capabilities: Search Indexes",
   "",
   "For logs or text-heavy data, standard `LIKE \x27%term%\x27` filters are slow and",
   "expensive. BigQuery\x27s **Search Indexes** allow for efficient pattern",
   "matching.",
   "",
   "```sql",
   "-- Creating a Search Index",
   "CREATE SEARCH INDEX idx_logs",
   "ON analytics.server_logs(ALL COLUMNS);",
   "",
   "-- Using the SEARCH function",
   "SELECT *",
   "FROM analytics.server_logs",
   "WHERE SEARCH(server_logs, \x27error \"critical failure\"\x27);",
   "```",
   "",
   "---",
   "",
   "## 6. Advanced SQL Techniques: Window Functions",
   "",
   "Window functions allow you to perform calculations across a set of rows related",
   "to the current row, without collapsing them into a single output row.",
   "",
   "### Key Window Functions",
   "",
   "* **Ranking:** `ROW_NUMBER()`, `RANK()`, `DENSE_RANK()`.",
   "* **Analytical:** `LAG()`, `LEAD()` (comparing to previous/next rows).",
   "* **Aggregation:** `SUM() OVER()`, `AVG() OVER()`.",
   "",
   "```sql",
   "-- Calculating a 7-day moving average of revenue",
   "SELECT",
   "  date,",
   "  revenue,",
   "  AVG(revenue) OVER (",
   "    ORDER BY date",
   "    ROWS BETWEEN 6 PRECEDING AND CURRENT ROW",
   "  ) AS moving_avg_7d",
   "FROM sales_table;",
   "```",
   "",
   "### Optimisation: `EXISTS` and `IN` for Semi-Joins",
   "",
   "In BigQuery, using `EXISTS` or `IN` with a subquery is an optimisation that",
   "the engine translates into a **Semi-Join** or **Anti-Join**.",
   "",
   "* **Efficiency:** A standard `JOIN` can produce duplicate rows if the join key is",
   "  not unique, requiring a `DISTINCT` operation. `EXISTS` and `IN` stop processing",
   "  a match as soon as the first one is found, reducing **Slot Time** and",
   "  **Bytes Shuffled**.",
   "* **Performance:** Use `EXISTS` for correlated subqueries and `IN` for",
   "  uncorrelated subqueries or static lists.",
   "* **Anti-Joins:** `NOT EXISTS` is more reliable for anti-joins because it handles",
   "  `NULL` values differently than `NOT IN`. If a `NOT IN` subquery returns a",
   "  `NULL`, the query will return zero results.",
   "",
   "#### Example: Semi-Join vs. Inner Join",
   "",
   "```sql",
   "-- Standard Join: Might produce duplicate rows if a user has multiple orders,",
   "-- requiring an expensive DISTINCT.",
   "SELECT DISTINCT u.user_id, u.name",
   "FROM `project.dataset.users` u",
   "JOIN `project.dataset.orders` o ON u.user_id = o.user_id;",
   "",
   "-- Optimised with EXISTS (Semi-Join): Stops as soon as the first order is found.",
   "-- More efficient for large datasets.",
   "SELECT u.user_id, u.name",
   "FROM `project.dataset.users` u",
   "WHERE EXISTS (",
   "  SELECT 1 FROM `project.dataset.orders` o WHERE o.user_id = u.user_id",
   ");",
   "",
   "-- Optimised with IN (Uncorrelated): Best for static lists or independent subqueries.",
   "SELECT user_id, name",
   "FROM `project.dataset.users`",
   "WHERE user_id IN (SELECT user_id FROM `project.dataset.orders`);",
   "```",
   "",
   "---",
   "",
   "## 7. Practical Performance Tuning: The Developer\x27s Workflow",
   "",
   "1. **Filter Early:** Apply `WHERE` clauses as close to the source as possible.",
   "2. **Select Only Needed Columns:** Avoid `SELECT *`. Every extra column adds to",
   "   the bytes scanned.",
   "3. **Aggregate Late:** Join small tables first, then aggregate.",
   "4. **Use CTEs for Clarity:** Common Table Expressions (CTEs) make your code more",
   "   readable, but remember that BigQuery does not \"materialise\" them—using the",
   "   same CTE multiple times will result in multiple scans. Use temporary tables",
   "   for heavy intermediate results.",
   "",
   "---",
   "",
   "## 8. Analysing the Execution Graph: Identifying Bottlenecks",
   "",
   "The execution graph provides a detailed view of how your query is processed. It",
   "shows how the **Dremel** engine breaks your SQL into multiple stages.",
   "",
   "### Comparison of Execution Metrics",
   "",
   "* **Slot Time:** The total compute resources consumed. High slot time relative to",
   "  execution time indicates high parallelism. Extremely high slot time with slow",
   "  performance can indicate inefficient operations like cross-joins.",
   "* **Wait Time (ms):** The time a stage waited for an available slot. High wait",
   "  times indicate that the project has reached its slot limit.",
   "* **Bytes Shuffled:** The amount of data moved between stages. Large shuffle",
   "  volumes are a bottleneck and can often be reduced through clustering or better",
   "  data modelling.",
   "* **Compute Time (Avg vs Max):** A large difference between Average and Maximum",
   "  compute time in a stage indicates **Data Skew**, where a small number of slots",
   "  process more data than others.",
   "",
   "### Join Patterns in the Graph",
   "",
   "BigQuery uses two strategies for joins:",
   "",
   "1. **Broadcast Join:** For joins with small tables (usually < 10MB), BigQuery",
   "   sends the small table to every slot processing the large table. This avoids",
   "   a shuffle.",
   "2. **Hash Join:** For joins between large tables, BigQuery shuffles both tables",
   "   based on the join key.",
   "",
   "### Common Bottlenecks and Solutions",
   "",
   "<!-- markdownlint-disable MD013 -->",
   "| Symptom | Probable Cause | Solution |",
   "| :--- | :--- | :--- |",
   "| **High Slot Time** | Complex `REGEXP`, UDFs, or large cross-joins. | Simplify logic; use `SEARCH` for text; ensure join keys are efficient. |",
   "| **High Wait Time** | Slot contention or hitting project limits. | Switch to Capacity pricing (Reservations) or optimise query to use fewer slots. |",
   "| **High Bytes Shuffled** | Joining large tables on non-clustered columns. | Cluster both tables on the join keys; use nested/repeated fields to avoid joins. |",
   "| **Data Skew** | Join keys are unevenly distributed (e.g., many NULLs). | Filter out NULLs before joining; distribute frequently occurring keys using a \"salting\" technique. |",
   "| **Exploding Joins** | **Low Cardinality** on join keys (Many-to-Many). | Check join logic; ensure you aren\x27t creating a Cartesian product inadvertently. |",
   "<!-- markdownlint-enable MD013 -->",
   "",
   "---",
   "",
   "## Final Thoughts",
   "",
   "Efficiency in BigQuery involves understanding the separation of storage and",
   "compute. By using denormalisation, partitioning, and clustering, you can",
   "reduce the amount of data processed and the resources consumed.",
   "",
   "Always keep an eye on the execution graph. It tells you more about your query\x27s",
   "health than the execution timer ever will.",
   "",
   "### Citations and Further Reading",
   "",
   "* [Google Cloud: BigQuery Explained - Storage Overview](https://cloud.google.com/blog/products/data-analytics/bigquery-explained-storage-overview)",
   "* [Official BigQuery Pricing Guide](https://cloud.google.com/bigquery/pricing)",
   "* [A Guide to Using Window Functions](https://medium.com/data-science/a-guide-to-using-window-functions-4b2768f589d9)",
   "* [Mastering Arrays in BigQuery (2024)](https://medium.com/@thomas.ellyatt/mastering-arrays-in-bigquery-2024-e62612b15c30)",
   "* [A Guide to Search Indexes in BigQuery](https://medium.com/@thomas.ellyatt/a-guide-to-search-indexes-in-bigquery-3d2b586e10fb)",
   "* [BigQuery Efficiency: How I Reduced Table Size by 35%](https://towardsdatascience.com/bigquery-efficiency-how-i-reduced-my-table-size-by-35-5-and-rows-by-93-1-dc8b9b7276ff/)",
   "* [Clustering for Improved Performance (2024)](https://medium.com/@thomas.ellyatt/clustering-for-improved-performance-in-bigquery-2024-55c9285828dd)",
   "* [Why Partitioning Tables is Essential (2024)](https://medium.com/@thomas.ellyatt/why-partitioning-tables-is-essential-in-bigquery-2024-6e771c9fc288)",
   "* [Ultimate Guide to Saving Time and Money with BigQuery](https://medium.com/@thomas.ellyatt/ultimate-guide-to-saving-time-and-money-with-bigquery-f2cddc1af1ad)",
   "* [Burn Data Rather Than Money with BigQuery: The Definitive Guide](https://towardsdatascience.com/burn-data-rather-than-money-with-bigquery-the-definitive-guide-1b50a9fdf096/)",
   "* [Query Optimisation Best Practices for Data Analysts](https://medium.com/@sheerwolff/query-optimization-in-bigquery-best-practices-for-data-analysts-9aba6cf68fea)",
   "* [Why Your 5-Second BigQuery Query Isn’t Cheap](https://luminousmen.substack.com/p/why-your-5-second-bigquery-query)"]
/-! ## Front matter and the content document

```
---
title: "A Guide to BigQuery Optimisation: Performance, Cost, and Architecture"
description: "An overview of BigQuery architecture, storage strategies, ..."
pubDate: "2026-02-13"
tags: ["big-query", "gcp", "data-engineering", "sql-optimisation"]
---
```
-/

/-- The shape of the content document's front matter: title, description,
publish date and tag list. -/
structure FrontMatter where
  title : String
  description : String
  pubDate : String
  tags : List String

/-- The front matter of `src/content/blog/big-query/index.md` (lines 1–6). -/
def frontMatter : FrontMatter :=
  { title := "A Guide to BigQuery Optimisation: Performance, Cost, and Architecture"
    description := "An overview of BigQuery architecture, storage strategies, and query optimisation techniques based on real-world case studies."
    pubDate := "2026-02-13"
    tags := ["big-query", "gcp", "data-engineering", "sql-optimisation"] }

/-- The content document: front matter plus body lines. -/
structure ContentDocument where
  meta : FrontMatter
  body : List String

/-- The single document of the repository's content collection. -/
def contentDocument : ContentDocument :=
  { meta := frontMatter, body := mdBodyLines }

/-! ## Markdown well-formedness -/

/-- A fence delimiter line: a line beginning with three backticks. -/
def isFenceLine (l : String) : Bool :=
  startsWithStr l "```"

/-- Scan the lines, toggling an in-fence flag at every fence delimiter
line; the fences are balanced (every opened block is closed) exactly when
the flag is off at the end. -/
def fencesBalanced (ls : List String) : Bool :=
  (ls.foldl (fun b l => if isFenceLine l then !b else b) false) == false

/-- Number of fence delimiter lines in the body. -/
def fenceLineCount (ls : List String) : Nat :=
  (ls.filter isFenceLine).length

/-- A table line: a line beginning with a pipe. -/
def isTableLine (l : String) : Bool :=
  startsWithStr l "|"

/-- Group maximal runs of consecutive table lines; `acc` holds the
current run in reverse. -/
def tableBlocksAux : List String → List String → List (List String)
  | acc, [] => if acc.isEmpty then [] else [acc.reverse]
  | acc, l :: ls =>
    if isTableLine l then tableBlocksAux (l :: acc) ls
    else if acc.isEmpty then tableBlocksAux [] ls
    else acc.reverse :: tableBlocksAux [] ls

/-- The maximal blocks of consecutive table lines in the body. -/
def tableBlocks (ls : List String) : List (List String) :=
  tableBlocksAux [] ls

/-- The pipe-split segment count of a table row.  A row of `n` columns
delimited by leading and trailing pipes has `n + 2` segments. -/
def rowSegs (l : String) : Nat :=
  (splitOnCh '|' l.data).length

/-- A delimiter-row cell: after trimming spaces, an optional leading
colon, at least one dash, and an optional trailing colon. -/
def isDelimCell (l : List Char) : Bool :=
  let t := trimCh l
  let t := if t.head? == some ':' then t.tail else t
  let t := if t.getLast? == some ':' then t.dropLast else t
  !t.isEmpty && t.all (· == '-')

/-- The inner cells of a pipe-delimited row (dropping the empty segments
before the leading and after the trailing pipe). -/
def innerCells (l : String) : List (List Char) :=
  ((splitOnCh '|' l.data).dropLast).tail

/-- A valid table block: at least a header and a delimiter row, every
line delimited by a leading and a trailing pipe, the second line made of
delimiter cells, and every row having the same column count as the
header (at least one column). -/
def validTableBlock : List String → Bool
  | header :: delim :: rows =>
    let n := rowSegs header
    (header :: delim :: rows).all
      (fun l => startsWithStr l "|" && (l.data.getLast? == some '|')) &&
    Nat.ble 3 n &&
    rowSegs delim == n &&
    rows.all (fun r => rowSegs r == n) &&
    (innerCells delim).all isDelimCell
  | _ => false

/-- Well-formed Markdown in the sense the spec checks: balanced code
fences and consistent table blocks. -/
def mdWellFormed (ls : List String) : Bool :=
  fencesBalanced ls && (tableBlocks ls).all validTableBlock

/-! ## The build step

The static-site generator that renders the document is an external
collaborator; this repository holds no executable logic.  The build step
is therefore modelled from the spec. -/

/-- Modelled from the spec: the build environment seen by one build of
the external generator (the repository holds no code reading it).  The
spec's control flow is "the external static-site generator reads the two
configuration files at build time ... renders each to HTML/CSS". -/
structure BuildEnv where
  envVars : List (String × String)
  buildId : Nat

/-- Modelled from the spec: evaluating the `astro.config.mjs` module.
The module body references nothing from the environment — it exports one
object literal — so its denotation is constant in the build environment. -/
def evalAstroConfig (_e : BuildEnv) : AstroConfig :=
  astroConfig

/-- Modelled from the spec: evaluating the `tailwind.config.mjs` module.
The module body likewise references nothing from the environment. -/
def evalTailwindConfig (_e : BuildEnv) : TailwindConfig :=
  tailwindConfig

/-- Modelled from the spec: the external generator's rendering of the
content document to its output page.  The generator is not part of this
repository; per the spec there is no runtime state, so rendering is a
pure function of the document.  Concretely modelled as emitting the
metadata followed by the body. -/
def render (d : ContentDocument) : String :=
  String.mk
    (("<h1>" ++ d.meta.title ++ "</h1>\n" ++ d.meta.description ++ "\n").data ++
      (d.body.map String.data).foldr (fun l acc => l ++ '\n' :: acc) [])

/-- Modelled from the spec: the build output tracked across builds — the
rendered page for the content document, when a build has run. -/
structure BuildState where
  output : Option String
deriving DecidableEq

/-- Modelled from the spec: one build's render step, writing the rendered
document into the build state.  "the content document is authored,
optionally revised, and re-rendered on every build". -/
def renderStep (d : ContentDocument) (_s : BuildState) : BuildState :=
  { output := some (render d) }
/-! ## Claims -/

/-- Claim C1: the content document's front matter contains every required
field with the correct type — title and description are strings (by the
type of `FrontMatter`), the publish date parses as the valid calendar
date 2026-02-13, and the tags are pairwise-distinct non-empty strings. -/
theorem claim_C1_front_matter_valid :
    parseDate contentDocument.meta.pubDate = some (2026, 2, 13) ∧
    contentDocument.meta.tags.all (fun t => !t.data.isEmpty) = true ∧
    distinctStrings contentDocument.meta.tags = true := by
  refine ⟨by decide, by decide, by decide⟩

/-- Claim C2: the site configuration's `site` field is a syntactically
valid absolute URL and its `base` field is a valid URL path prefix. -/
theorem claim_C2_site_config_urls :
    isAbsoluteURL astroConfig.site = true ∧
    isValidBasePath astroConfig.base = true := by
  refine ⟨by decide, by decide⟩

/-- Claim C3: every glob in the style configuration's content list
matches at least one file present in the repository; in particular the
single pattern matches the Markdown content document at
`src/content/blog/big-query/index.md`. -/
theorem claim_C3_content_glob_matches :
    tailwindConfig.content.all
      (fun g => repoFiles.any (fun f => globMatchesFile g f)) = true ∧
    tailwindConfig.content.all
      (fun g => globMatchesFile g "./src/content/blog/big-query/index.md") = true := by
  refine ⟨by decide, by decide⟩

set_option maxRecDepth 40000 in
/-- Claim C4: the body of the content document is well-formed Markdown —
every fenced code block opened with three backticks is closed (the fence
scan ends outside a fence and the number of fence delimiter lines is
even), and every table block's rows share the column structure of its
header and delimiter row. -/
theorem claim_C4_markdown_well_formed :
    mdWellFormed contentDocument.body = true ∧
    fenceLineCount contentDocument.body % 2 = 0 ∧
    (tableBlocks contentDocument.body).all validTableBlock = true := by
  refine ⟨by decide, by decide, by decide⟩

/-- Claim C5: the theme configuration record has exactly the declared
shape — an ordered sequence of content globs, a mapping from color token
names to color values, a mapping from font family names to ordered font
stacks, and a plugin list containing the typography plugin. -/
theorem claim_C5_theme_config_shape :
    tailwindConfig =
      { content := ["./src/**/*.\x7bastro,html,js,jsx,md,mdx,svelte,ts,tsx,vue\x7d"]
        tuiColors :=
          [("bg", "#1a1b26"), ("fg", "#a9b1d6"), ("accent", "#9ece6a"),
           ("dim", "#565f89"), ("border", "#414868"), ("selection", "#33467c")]
        fontFamily := [("mono", ["\x22JetBrains Mono\x22", "\x22Fira Code\x22", "monospace"])]
        plugins := [Plugin.typography] } ∧
    Plugin.typography ∈ tailwindConfig.plugins := by
  refine ⟨rfl, ?_⟩
  simp [tailwindConfig]

/-- Claim C6: the site configuration declares exactly the deployment
site URL, the base path, and the active integrations — and the only
enabled integration is the Tailwind (utility-CSS) integration. -/
theorem claim_C6_site_config_decls :
    astroConfig =
      { site := "https://lab176344.github.io"
        base := "/"
        integrations := [Integration.tailwind] } ∧
    astroConfig.integrations = [Integration.tailwind] ∧
    astroConfig.integrations.all (fun i => i == Integration.tailwind) = true := by
  refine ⟨rfl, rfl, by decide⟩

/-- Claim C7: rendering the content document is idempotent — re-running
the render step on its own output state is the identity on build states,
so rendering twice yields byte-identical output to rendering once. -/
theorem claim_C7_render_idempotent (d : ContentDocument) (s : BuildState) :
    renderStep d (renderStep d s) = renderStep d s ∧
    (renderStep d (renderStep d s)).output = (renderStep d s).output :=
  ⟨rfl, rfl⟩

/-- Claim C8: evaluating either configuration module is deterministic and
input-independent — any two builds observe the same site configuration
record and the same style configuration record. -/
theorem claim_C8_config_eval_deterministic (e₁ e₂ : BuildEnv) :
    evalAstroConfig e₁ = evalAstroConfig e₂ ∧
    evalTailwindConfig e₁ = evalTailwindConfig e₂ :=
  ⟨rfl, rfl⟩

/-- Claim C9: every color value in the theme's `tui` palette is a
7-character lowercase hexadecimal color of the form `#rrggbb`, the six
declared token names are bg, fg, accent, dim, border and selection, and
the six values are pairwise distinct. -/
theorem claim_C9_palette_hex :
    (tailwindConfig.tuiColors.map Prod.snd).all isHexColor = true ∧
    distinctStrings (tailwindConfig.tuiColors.map Prod.snd) = true ∧
    tailwindConfig.tuiColors.map Prod.fst =
      ["bg", "fg", "accent", "dim", "border", "selection"] := by
  refine ⟨by decide, by decide, rfl⟩

/-- Claim C10: the `mono` font stack of the theme configuration is
non-empty and its last element is the generic CSS family `monospace`, so
every preceding named family has a generic fallback after it. -/
theorem claim_C10_mono_stack :
    monoStack.isEmpty = false ∧
    monoStack.getLast? = some "monospace" :=
  ⟨rfl, rfl⟩
